import Mathlib

/-!
Verification of the Chem2TextQA multi-source acquisition and normalization
pipeline.  The Python sources (scrapers, storage, CLI orchestration, rate
limiter) are shallowly embedded: pure record-mapping functions become Lean
functions over structures that capture exactly the fields the code reads,
stateful pagination loops become structural recursion over the finite list of
upstream page responses, and fallible calls become Except values.
-/

set_option maxHeartbeats 1000000

/-- Python string truthiness for an optional string: None and the empty
string are falsy, every other string is truthy. -/
def pyTruthy : Option String → Bool
  | none => false
  | some s => s ≠ ""

/-- Python expression of the shape given-value or-else default, as used in
the idiom x or y for optional strings. -/
def pyOrElse (o : Option String) (dflt : String) : String :=
  match o with
  | some s => if s ≠ "" then s else dflt
  | none => dflt

/-- JSON values, the shape shared by the pydantic serializer and validator
(model_dump_json / model_validate_json) that storage/jsonl.py goes through. -/
inductive Json where
  | null : Json
  | bool (b : Bool) : Json
  | num (n : Int) : Json
  | str (s : String) : Json
  | arr (items : List Json) : Json
  | obj (fields : List (String × Json)) : Json
deriving Repr

/-- A Python datetime.date value (models/document.py publication_date). -/
structure PyDate where
  year : Nat
  month : Nat
  day : Nat
deriving Repr, DecidableEq

/-- Gregorian leap-year rule used by datetime.date validation. -/
def isLeapYear (y : Nat) : Bool :=
  y % 4 = 0 && (y % 100 ≠ 0 || y % 400 = 0)

/-- Days in a month, as validated by the datetime.date constructor. -/
def daysInMonth (y m : Nat) : Nat :=
  if m = 2 then (if isLeapYear y then 29 else 28)
  else if m = 4 || m = 6 || m = 9 || m = 11 then 30
  else 31

/-- The range checks the datetime.date constructor performs. -/
def PyDate.validB (d : PyDate) : Bool :=
  1 ≤ d.year && d.year ≤ 9999 && 1 ≤ d.month && d.month ≤ 12
    && 1 ≤ d.day && d.day ≤ daysInMonth d.year d.month

/-- datetime.date(y, m, d): some date on success, none when the constructor
would raise ValueError.  A non-positive component maps to 0 under toNat and
is rejected by the range check, exactly as the constructor rejects it. -/
def mkPyDate? (y m d : Int) : Option PyDate :=
  let dt : PyDate := ⟨y.toNat, m.toNat, d.toNat⟩
  if dt.validB then some dt else none

/-- A timezone-aware UTC datetime (models/document.py scraped_at). -/
structure PyDateTime where
  year : Nat
  month : Nat
  day : Nat
  hour : Nat
  minute : Nat
  second : Nat
  microsecond : Nat
deriving Repr, DecidableEq

/-- Validity of a UTC datetime as datetime.datetime enforces it. -/
def PyDateTime.validB (t : PyDateTime) : Bool :=
  PyDate.validB ⟨t.year, t.month, t.day⟩ && t.hour ≤ 23 && t.minute ≤ 59
    && t.second ≤ 59 && t.microsecond ≤ 999999

/-- models/document.py SourceType: the four-value source enum. -/
inductive SourceType where
  | pubmed
  | google_patents
  | uspto
  | epo
deriving Repr, DecidableEq

/-- String value of each SourceType member (str-valued enum). -/
def SourceType.value : SourceType → String
  | .pubmed => "pubmed"
  | .google_patents => "google_patents"
  | .uspto => "uspto"
  | .epo => "epo"

/-- models/document.py Author. -/
structure Author where
  name : String
  affiliation : Option String := none
deriving Repr, DecidableEq

/-- models/document.py Identifier. -/
structure Identifier where
  type : String
  value : String
deriving Repr, DecidableEq

/-- models/document.py ScientificDocument.  The open metadata mapping is
modelled as an insertion-ordered association list of JSON-representable
values, which is the shape every adapter in the repository stores there and
the shape pydantic serializes. -/
structure ScientificDocument where
  source : SourceType
  title : String
  abstract : Option String := none
  authors : List Author := []
  publication_date : Option PyDate := none
  identifiers : List Identifier := []
  chemical_entities : List String := []
  full_text_url : Option String := none
  keywords : List String := []
  journal_or_office : Option String := none
  metadata : List (String × Json) := []
  scraped_at : PyDateTime
deriving Repr

/-- The character for one decimal digit. -/
def digitChar (n : Nat) : Char := Char.ofNat (48 + n)

/-- Decimal value of a digit character, none for a non-digit. -/
def digitVal? (c : Char) : Option Nat :=
  if 48 ≤ c.toNat ∧ c.toNat ≤ 57 then some (c.toNat - 48) else none

/-- Characters of the ISO form YYYY-MM-DD of a date, as date.isoformat and
the pydantic serializer emit it. -/
def dateIsoChars (d : PyDate) : List Char :=
  [digitChar (d.year / 1000 % 10), digitChar (d.year / 100 % 10),
   digitChar (d.year / 10 % 10), digitChar (d.year % 10), '-',
   digitChar (d.month / 10 % 10), digitChar (d.month % 10), '-',
   digitChar (d.day / 10 % 10), digitChar (d.day % 10)]

/-- ISO string of a date. -/
def PyDate.isoString (d : PyDate) : String := String.mk (dateIsoChars d)

/-- Parse the ISO form YYYY-MM-DD, with the range validation the pydantic
date validator performs. -/
def parseIsoDateChars? : List Char → Option PyDate
  | [y1, y2, y3, y4, s1, m1, m2, s2, d1, d2] =>
    if s1 = '-' ∧ s2 = '-' then do
      let a ← digitVal? y1
      let b ← digitVal? y2
      let c ← digitVal? y3
      let e ← digitVal? y4
      let f ← digitVal? m1
      let g ← digitVal? m2
      let h ← digitVal? d1
      let i ← digitVal? d2
      let dt : PyDate := ⟨((a * 10 + b) * 10 + c) * 10 + e, f * 10 + g, h * 10 + i⟩
      if dt.validB then some dt else none
    else none
  | _ => none

/-- Parse an ISO date string. -/
def parseIsoDate? (s : String) : Option PyDate := parseIsoDateChars? s.data

/-- Characters of the RFC 3339 form of a UTC datetime as the pydantic
serializer emits it: YYYY-MM-DDTHH:MM:SSZ, with a six-digit fractional
second part when the microsecond field is nonzero. -/
def dateTimeIsoChars (t : PyDateTime) : List Char :=
  dateIsoChars ⟨t.year, t.month, t.day⟩ ++
    'T' :: [digitChar (t.hour / 10 % 10), digitChar (t.hour % 10), ':',
            digitChar (t.minute / 10 % 10), digitChar (t.minute % 10), ':',
            digitChar (t.second / 10 % 10), digitChar (t.second % 10)] ++
    (if t.microsecond = 0 then ['Z']
     else '.' :: [digitChar (t.microsecond / 100000 % 10),
                  digitChar (t.microsecond / 10000 % 10),
                  digitChar (t.microsecond / 1000 % 10),
                  digitChar (t.microsecond / 100 % 10),
                  digitChar (t.microsecond / 10 % 10),
                  digitChar (t.microsecond % 10), 'Z'])

/-- RFC 3339 string of a UTC datetime. -/
def PyDateTime.isoString (t : PyDateTime) : String := String.mk (dateTimeIsoChars t)

/-- Parse the fractional-second tail of an RFC 3339 UTC timestamp. -/
def parseIsoFracChars? : List Char → Option Nat
  | ['Z'] => some 0
  | ['.', u1, u2, u3, u4, u5, u6, 'Z'] => do
    let a ← digitVal? u1
    let b ← digitVal? u2
    let c ← digitVal? u3
    let e ← digitVal? u4
    let f ← digitVal? u5
    let g ← digitVal? u6
    some (((((a * 10 + b) * 10 + c) * 10 + e) * 10 + f) * 10 + g)
  | _ => none

/-- Parse the RFC 3339 form of a UTC datetime, with the range validation the
pydantic datetime validator performs. -/
def parseIsoDateTimeChars? : List Char → Option PyDateTime
  | y1 :: y2 :: y3 :: y4 :: s1 :: m1 :: m2 :: s2 :: d1 :: d2 :: sT :: h1 :: h2 :: sc1
      :: n1 :: n2 :: sc2 :: x1 :: x2 :: rest => do
    let dt ← parseIsoDateChars? [y1, y2, y3, y4, s1, m1, m2, s2, d1, d2]
    if sT = 'T' ∧ sc1 = ':' ∧ sc2 = ':' then
      let a ← digitVal? h1
      let b ← digitVal? h2
      let c ← digitVal? n1
      let e ← digitVal? n2
      let f ← digitVal? x1
      let g ← digitVal? x2
      let us ← parseIsoFracChars? rest
      let t : PyDateTime :=
        ⟨dt.year, dt.month, dt.day, a * 10 + b, c * 10 + e, f * 10 + g, us⟩
      if t.validB then some t else none
    else none
  | _ => none

/-- Parse an RFC 3339 UTC datetime string. -/
def parseIsoDateTime? (s : String) : Option PyDateTime := parseIsoDateTimeChars? s.data

/-- JSON form of an optional string field (null when absent). -/
def optStrJson : Option String → Json
  | none => .null
  | some s => .str s

/-- pydantic serialization of an Author. -/
def Author.toJson (a : Author) : Json :=
  .obj [("name", .str a.name), ("affiliation", optStrJson a.affiliation)]

/-- pydantic serialization of an Identifier. -/
def Identifier.toJson (i : Identifier) : Json :=
  .obj [("type", .str i.type), ("value", .str i.value)]

/-- pydantic model_dump_json of a ScientificDocument: one JSON object with
the fields in declaration order, dates in ISO form, the UTC timestamp in
RFC 3339 form. -/
def ScientificDocument.dumpJson (d : ScientificDocument) : Json :=
  .obj [("source", .str d.source.value),
        ("title", .str d.title),
        ("abstract", optStrJson d.abstract),
        ("authors", .arr (d.authors.map Author.toJson)),
        ("publication_date",
          match d.publication_date with
          | none => .null
          | some dt => .str dt.isoString),
        ("identifiers", .arr (d.identifiers.map Identifier.toJson)),
        ("chemical_entities", .arr (d.chemical_entities.map Json.str)),
        ("full_text_url", optStrJson d.full_text_url),
        ("keywords", .arr (d.keywords.map Json.str)),
        ("journal_or_office", optStrJson d.journal_or_office),
        ("metadata", .obj d.metadata),
        ("scraped_at", .str d.scraped_at.isoString)]

/-- Read a JSON value as a string. -/
def asStr? : Json → Option String
  | .str s => some s
  | _ => none

/-- Read a JSON value as an optional string (null means absent). -/
def asOptStr? : Json → Option (Option String)
  | .null => some none
  | .str s => some (some s)
  | _ => none

/-- Validate each element of a JSON array, failing if any element fails. -/
def validateList? (f : Json → Option α) : List Json → Option (List α)
  | [] => some []
  | j :: js => do
    let x ← f j
    let xs ← validateList? f js
    some (x :: xs)

/-- Read a JSON value as a list of strings. -/
def asStrList? : Json → Option (List String)
  | .arr xs => validateList? asStr? xs
  | _ => none

/-- Inverse of SourceType.value, as the pydantic enum validator. -/
def SourceType.ofValue? (s : String) : Option SourceType :=
  if s = "pubmed" then some .pubmed
  else if s = "google_patents" then some .google_patents
  else if s = "uspto" then some .uspto
  else if s = "epo" then some .epo
  else none

/-- Validation of an optional-string field: an absent key falls back to the
declared default none. -/
def optStrField? (fs : List (String × Json)) (key : String) : Option (Option String) :=
  match fs.lookup key with
  | none => some none
  | some j => asOptStr? j

/-- pydantic validation of an Author object. -/
def Author.fromJson? : Json → Option Author
  | .obj fs => do
    let n ← (fs.lookup "name").bind asStr?
    let aff ← optStrField? fs "affiliation"
    some ⟨n, aff⟩
  | _ => none

/-- pydantic validation of an Identifier object. -/
def Identifier.fromJson? : Json → Option Identifier
  | .obj fs => do
    let t ← (fs.lookup "type").bind asStr?
    let v ← (fs.lookup "value").bind asStr?
    some ⟨t, v⟩
  | _ => none

/-- pydantic model_validate_json of a ScientificDocument, none where the
validator would raise ValidationError.  List-valued and metadata fields fall
back to their declared empty defaults when the key is absent.  The
default_factory of scraped_at (fill in the current time when the key is
absent) is not modelled: serialized documents always carry the field. -/
def ScientificDocument.validateJson? : Json → Option ScientificDocument
  | .obj fs => do
    let src ← ((fs.lookup "source").bind asStr?).bind SourceType.ofValue?
    let title ← (fs.lookup "title").bind asStr?
    let abstract ← optStrField? fs "abstract"
    let authors ←
      match fs.lookup "authors" with
      | none => some []
      | some (.arr xs) => validateList? Author.fromJson? xs
      | some _ => none
    let pubDate ←
      match fs.lookup "publication_date" with
      | none => some none
      | some .null => some none
      | some (.str s) => (parseIsoDate? s).map some
      | some _ => none
    let idents ←
      match fs.lookup "identifiers" with
      | none => some []
      | some (.arr xs) => validateList? Identifier.fromJson? xs
      | some _ => none
    let chems ←
      match fs.lookup "chemical_entities" with
      | none => some []
      | some j => asStrList? j
    let url ← optStrField? fs "full_text_url"
    let kws ←
      match fs.lookup "keywords" with
      | none => some []
      | some j => asStrList? j
    let office ← optStrField? fs "journal_or_office"
    let meta ←
      match fs.lookup "metadata" with
      | none => some []
      | some (.obj ms) => some ms
      | some _ => none
    let scraped ←
      match fs.lookup "scraped_at" with
      | some (.str s) => parseIsoDateTime? s
      | _ => none
    some ⟨src, title, abstract, authors, pubDate, idents, chems, url, kws, office,
          meta, scraped⟩
  | _ => none

/-- One line of a JSONL file: either a line whose stripped text is empty
(skipped by the reader, not counted by the counter), or a line holding one
serialized JSON record. -/
inductive JsonlLine where
  | blank
  | record (j : Json)

/-- storage/jsonl.py append_documents: opens the path in append mode
(creating the file when missing), writes one serialized line per document
and returns the count written.  The file is the optional list of its lines,
none meaning the file does not exist. -/
def append_documents (file : Option (List JsonlLine))
    (docs : List ScientificDocument) : List JsonlLine × Nat :=
  (file.getD [] ++ docs.map (fun d => .record d.dumpJson), docs.length)

/-- The two exceptions the reader can raise. -/
inductive ReadError where
  | fileNotFound
  | validationError
deriving Repr, DecidableEq

/-- Result of iterating the lazy reader to the end: the documents yielded,
and the error that interrupted the iteration, if any. -/
structure ReadOutcome where
  yielded : List ScientificDocument
  error : Option ReadError
deriving Repr

/-- The line loop of storage/jsonl.py read_documents: skip lines that strip
to empty, validate every other line, stop with ValidationError at the first
line that fails to validate. -/
def readLines : List JsonlLine → ReadOutcome
  | [] => ⟨[], none⟩
  | .blank :: ls => readLines ls
  | .record j :: ls =>
    match ScientificDocument.validateJson? j with
    | none => ⟨[], some .validationError⟩
    | some d =>
      let r := readLines ls
      ⟨d :: r.yielded, r.error⟩

/-- storage/jsonl.py read_documents: FileNotFoundError on a missing file,
otherwise the line loop. -/
def read_documents : Option (List JsonlLine) → ReadOutcome
  | none => ⟨[], some .fileNotFound⟩
  | some ls => readLines ls

/-- Whether a line counts as content (its stripped text is non-empty). -/
def JsonlLine.nonBlank : JsonlLine → Bool
  | .blank => false
  | .record _ => true

/-- storage/jsonl.py count_documents: 0 for a missing file, otherwise the
number of lines that do not strip to empty. -/
def count_documents : Option (List JsonlLine) → Nat
  | none => 0
  | some ls => ls.countP JsonlLine.nonBlank

/-- Python str.strip() with no argument: trim surrounding whitespace. -/
def pyStrip (s : String) : String :=
  String.mk (((s.data.dropWhile Char.isWhitespace).reverse.dropWhile
    Char.isWhitespace).reverse)

/-- Accumulator loop for whitespace splitting: current token characters are
held in reverse in acc, finished tokens are emitted. -/
def splitWsAux : List Char → List Char → List String
  | [], acc => if acc.isEmpty then [] else [String.mk acc.reverse]
  | c :: cs, acc =>
    if c.isWhitespace then
      if acc.isEmpty then splitWsAux cs []
      else String.mk acc.reverse :: splitWsAux cs []
    else splitWsAux cs (c :: acc)

/-- Python str.split() with no argument: split on whitespace runs and drop
empty segments. -/
def pySplitWs (s : String) : List String := splitWsAux s.data []

/-- Decimal value of a nonempty all-digit character sequence. -/
def digitsValAux? (acc : Nat) : List Char → Option Nat
  | [] => some acc
  | c :: cs =>
    match digitVal? c with
    | some v => digitsValAux? (acc * 10 + v) cs
    | none => none

/-- Decimal value of a digit run, none when empty or not all digits. -/
def digitsVal? (cs : List Char) : Option Nat :=
  if cs.isEmpty then none else digitsValAux? 0 cs

/-- Python int(str): strip whitespace, optional sign, then a nonempty digit
run; none where int would raise ValueError.  (Underscore digit grouping is
not modelled.) -/
def pyInt? (s : String) : Option Int :=
  match (pyStrip s).data with
  | '+' :: rest => (digitsVal? rest).map (fun n => (n : Int))
  | '-' :: rest => (digitsVal? rest).map (fun n => -(n : Int))
  | rest => (digitsVal? rest).map (fun n => (n : Int))

/-- The fixed three-letter month abbreviation table of
PubMedScraper._parse_date. -/
def pubmedMonthMap : List (String × Nat) :=
  [("Jan", 1), ("Feb", 2), ("Mar", 3), ("Apr", 4), ("May", 5), ("Jun", 6),
   ("Jul", 7), ("Aug", 8), ("Sep", 9), ("Oct", 10), ("Nov", 11), ("Dec", 12)]

/-- PubMedScraper._parse_date: parse MEDLINE date strings such as
2024 Jan 15 or 2024 Mar.  ValueError from int() or from the date
constructor, and IndexError from a whitespace-only string, all yield none. -/
def pubmed_parse_date (date_str : String) : Option PyDate :=
  if date_str = "" then none
  else
    match pySplitWs date_str with
    | [] => none
    | p0 :: rest =>
      match pyInt? p0 with
      | none => none
      | some year =>
        let month : Nat :=
          match rest with
          | [] => 1
          | p1 :: _ => (pubmedMonthMap.lookup p1).getD 1
        match rest with
        | [] => mkPyDate? year month 1
        | [_] => mkPyDate? year month 1
        | _ :: p2 :: _ =>
          match pyInt? p2 with
          | none => none
          | some day => mkPyDate? year month day

/-- A parsed MEDLINE record: the fields PubMedScraper._record_to_document
reads, absent keys as none / empty lists. -/
structure MedlineRecord where
  TI : Option String := none
  PMID : Option String := none
  AID : List String := []
  AU : List String := []
  DP : Option String := none
  MH : List String := []
  AB : Option String := none
  OT : List String := []
  JT : Option String := none
  PT : List String := []
  LA : List String := []

/-- The pharmacological subheading markers of
PubMedScraper._is_chemical_mesh. -/
def chemicalIndicators : List String :=
  ["/pharmacology", "/chemistry", "/metabolism", "/chemical synthesis",
   "/therapeutic use", "/toxicity"]

/-- PubMedScraper._is_chemical_mesh: the heading, with emphasis stars
removed and lowercased, contains one of the markers as a substring. -/
def pubmed_is_chemical_mesh (heading : String) : Bool :=
  let hl := (heading.replace "*" "").toLower
  chemicalIndicators.any (fun ind => decide (ind.data <:+: hl.data))

/-- Python str.strip with the single-character argument star: drop leading
and trailing star characters. -/
def pyStripStar (s : String) : String :=
  String.mk (((s.data.dropWhile (fun c => c = '*')).reverse.dropWhile
    (fun c => c = '*')).reverse)

/-- The segment of a string before its first slash (split on slash, first
part). -/
def beforeSlash (s : String) : String := (s.splitOn "/").headD ""

/-- PubMedScraper._record_to_document.  Returns none exactly when the TI
field is absent or empty; otherwise builds the canonical document.  The
argument now is the construction-time UTC timestamp that the pydantic
default factory fills into scraped_at. -/
def pubmed_record_to_document (now : PyDateTime) (record : MedlineRecord) :
    Option ScientificDocument :=
  let title := record.TI.getD ""
  if title = "" then none
  else
    let pmid := record.PMID
    let pmidIds : List Identifier :=
      if pyTruthy pmid then [⟨"pmid", pmid.getD ""⟩] else []
    let doiIds : List Identifier :=
      record.AID.filterMap (fun aid =>
        if aid.endsWith "[doi]" then
          some ⟨"doi", aid.replace " [doi]" ""⟩
        else none)
    let authors := record.AU.map (fun name => Author.mk name none)
    let pub_date := pubmed_parse_date (record.DP.getD "")
    let mesh_headings := record.MH
    let chemical_entities :=
      (mesh_headings.filter pubmed_is_chemical_mesh).map
        (fun mh => beforeSlash (pyStripStar mh))
    some
      { source := .pubmed
        title := title
        abstract := record.AB
        authors := authors
        publication_date := pub_date
        identifiers := pmidIds ++ doiIds
        chemical_entities := chemical_entities
        keywords := record.OT
        journal_or_office := record.JT
        full_text_url :=
          if pyTruthy pmid then
            some ("https://pubmed.ncbi.nlm.nih.gov/" ++ pmid.getD "" ++ "/")
          else none
        metadata :=
          [("mesh_headings", Json.arr (mesh_headings.map Json.str)),
           ("publication_type", Json.arr (record.PT.map Json.str)),
           ("language", Json.arr (record.LA.map Json.str))]
        scraped_at := now }

/-- The fixed PubMed fetch batch size. -/
def BATCH_SIZE : Nat := 500

/-- Outcome of one Entrez.efetch call: the transport raising out of the call
(there is no try/except around it in PubMedScraper.search), or a parsed
MEDLINE batch. -/
inductive PMFetch where
  | failure
  | records (recs : List MedlineRecord)

/-- The batch loop of PubMedScraper.search: one iteration per start offset
in range(0, fetch_count, BATCH_SIZE), consuming one upstream batch response
per iteration, appending the mapped documents of each batch in order.  An
uncaught efetch failure propagates out of the loop as an exception. -/
def pubmed_fetchLoop (now : PyDateTime) : Nat → List PMFetch →
    Except Unit (List ScientificDocument)
  | _, [] => .ok []
  | remaining, b :: bs =>
    if remaining = 0 then .ok []
    else
      match b with
      | .failure => .error ()
      | .records recs =>
        match pubmed_fetchLoop now (remaining - min BATCH_SIZE remaining) bs with
        | .error e => .error e
        | .ok rest =>
          .ok (recs.filterMap (pubmed_record_to_document now) ++ rest)

/-- PubMedScraper.search after the initial history-backed esearch call:
total_count is the Count the upstream reported, and the loop fetches
min(total_count, max_results) records in batches. -/
def pubmed_search (now : PyDateTime) (total_count max_results : Nat)
    (batches : List PMFetch) : Except Unit (List ScientificDocument) :=
  pubmed_fetchLoop now (min total_count max_results) batches

/-- One inventor object of a PatentsView patent record. -/
structure PVInventor where
  inventor_name_first : Option String := none
  inventor_name_last : Option String := none

/-- One assignee object of a PatentsView patent record. -/
structure PVAssignee where
  assignee_organization : Option String := none

/-- One CPC object of a PatentsView patent record. -/
structure PVCpc where
  cpc_group_id : Option String := none

/-- A PatentsView patent record: the fields USPTOScraper._patent_to_document
reads. -/
structure PVPatent where
  patent_id : Option String := none
  patent_title : Option String := none
  patent_abstract : Option String := none
  patent_date : Option String := none
  inventors : List PVInventor := []
  assignees : List PVAssignee := []
  cpc_current : List PVCpc := []

/-- USPTOScraper._patent_to_document: none exactly when patent_title is
absent or empty. -/
def uspto_patent_to_document (now : PyDateTime) (patent : PVPatent) :
    Option ScientificDocument :=
  let title := patent.patent_title.getD ""
  if title = "" then none
  else
    let patent_id := patent.patent_id.getD ""
    let identifiers : List Identifier :=
      if patent_id ≠ "" then [⟨"patent_number", patent_id⟩] else []
    let authors := patent.inventors.filterMap (fun inv =>
      let first := inv.inventor_name_first.getD ""
      let last := inv.inventor_name_last.getD ""
      if first ≠ "" ∨ last ≠ "" then
        some (Author.mk (pyStrip (first ++ " " ++ last)) none)
      else none)
    let pub_date :=
      if pyTruthy patent.patent_date then parseIsoDate? (patent.patent_date.getD "")
      else none
    let cpc_codes := patent.cpc_current.filterMap (fun cpc =>
      if pyTruthy cpc.cpc_group_id then some (cpc.cpc_group_id.getD "") else none)
    let assignees := patent.assignees.filterMap (fun a =>
      if pyTruthy a.assignee_organization then some (a.assignee_organization.getD "")
      else none)
    some
      { source := .uspto
        title := title
        abstract := patent.patent_abstract
        authors := authors
        publication_date := pub_date
        identifiers := identifiers
        full_text_url :=
          if patent_id ≠ "" then
            some ("https://patents.google.com/patent/US" ++ patent_id)
          else none
        journal_or_office := some "USPTO"
        metadata :=
          [("cpc_codes", Json.arr (cpc_codes.map Json.str)),
           ("assignees", Json.arr (assignees.map Json.str))]
        scraped_at := now }

/-- A parsed PatentsView response body: the patents list (none when the
response is falsy or has no patents key) and the pagination cursor. -/
structure PVResponse where
  patents : Option (List PVPatent) := none
  cursor : Option String := none

/-- Outcome of one USPTOScraper._fetch_page call: the retry-wrapped call
re-raising after its attempts exhaust, or a response body. -/
inductive PVFetch where
  | failure
  | response (r : PVResponse)

/-- The inner record loop of USPTOScraper.search: map each patent, append
the mapped documents, stop once fetched reaches max_results. -/
def usptoInner (now : PyDateTime) (cap : Nat) (docs : List ScientificDocument) :
    List PVPatent → List ScientificDocument
  | [] => docs
  | p :: ps =>
    match uspto_patent_to_document now p with
    | none => usptoInner now cap docs ps
    | some d =>
      let docs2 := docs ++ [d]
      if cap ≤ docs2.length then docs2 else usptoInner now cap docs2 ps

/-- The pagination loop of USPTOScraper.search.  The _fetch_page call sits
directly in the loop body with no try/except, so a fetch failure propagates
out of search as an exception, discarding the accumulated documents. -/
def uspto_searchLoop (now : PyDateTime) (max_results : Nat) :
    List PVFetch → List ScientificDocument → Except Unit (List ScientificDocument)
  | [], docs => .ok docs
  | f :: fs, docs =>
    if docs.length < max_results then
      match f with
      | .failure => .error ()
      | .response r =>
        match r.patents with
        | none => .ok docs
        | some ps =>
          if ps.isEmpty then .ok docs
          else
            let docs2 := usptoInner now max_results docs ps
            if pyTruthy r.cursor then uspto_searchLoop now max_results fs docs2
            else .ok docs2
    else .ok docs

/-- USPTOScraper.search over a sequence of upstream fetch outcomes. -/
def uspto_search (now : PyDateTime) (max_results : Nat) (fetches : List PVFetch) :
    Except Unit (List ScientificDocument) :=
  uspto_searchLoop now max_results fetches []

/-- The document-id block of an EPO exchange-document (findtext with
default empty string for each child). -/
structure EPODocId where
  country : String := ""
  doc_number : String := ""
  kind : String := ""
  date : String := ""

/-- An EPO exchange-document element, characterized by the projections
EPOScraper._element_to_document queries on it: for each queried element, the
outer option is whether the element exists and the inner option is its text
(lxml returns None for an empty element). -/
structure EPOExchangeDoc where
  title_en : Option (Option String) := none
  title_any : Option (Option String) := none
  abstract_en : Option (Option String) := none
  abstract_any : Option (Option String) := none
  doc_id : Option EPODocId := none
  applicant_names : List (Option String) := []
  ipcr_texts : List (Option String) := []

/-- The title EPOScraper._element_to_document extracts: the English title
element if present, else the any-language one; empty when the found element
is missing or has falsy text. -/
def epo_title (e : EPOExchangeDoc) : String :=
  let title_elem :=
    match e.title_en with
    | some t => some t
    | none => e.title_any
  match title_elem with
  | some (some t) => t
  | _ => ""

/-- EPO date strings are 8-digit YYYYMMDD; parse via int() on the three
slices and the date constructor, none when either raises ValueError. -/
def epo_parse8 (s : String) : Option PyDate :=
  match pyInt? (String.mk (s.data.take 4)),
      pyInt? (String.mk ((s.data.drop 4).take 2)),
      pyInt? (String.mk ((s.data.drop 6).take 2)) with
  | some y, some m, some d => mkPyDate? y m d
  | _, _, _ => none

/-- EPOScraper._element_to_document: none exactly when the extracted title
is empty. -/
def epo_element_to_document (now : PyDateTime) (e : EPOExchangeDoc) :
    Option ScientificDocument :=
  let title := epo_title e
  if title = "" then none
  else
    let abstract_elem :=
      match e.abstract_en with
      | some t => some t
      | none => e.abstract_any
    let abstract := abstract_elem.bind id
    let identifiers : List Identifier :=
      match e.doc_id with
      | none => []
      | some did =>
        if did.doc_number ≠ "" then
          [⟨"patent_number", did.country ++ did.doc_number ++ did.kind⟩]
        else []
    let authors := e.applicant_names.filterMap (fun t =>
      match t with
      | some s => if s ≠ "" then some (Author.mk s none) else none
      | none => none)
    let date_elem := (e.doc_id.map EPODocId.date).getD ""
    let pub_date :=
      if date_elem ≠ "" ∧ date_elem.length = 8 then epo_parse8 date_elem
      else none
    let ipc_codes := e.ipcr_texts.filterMap (fun t =>
      match t with
      | some s => if s ≠ "" then some (pyStrip s) else none
      | none => none)
    some
      { source := .epo
        title := title
        abstract := abstract
        authors := authors
        publication_date := pub_date
        identifiers := identifiers
        journal_or_office := some "EPO"
        metadata := [("ipc_codes", Json.arr (ipc_codes.map Json.str))]
        scraped_at := now }

/-- The EPO and PatentsView page size. -/
def PAGE_SIZE : Nat := 100

/-- Outcome of one EPO published_data_search call: failure covers both a
transport exception and a non-200 status (both log and break); a page
carries the exchange-document elements its XML parses to, an unparsable
payload giving the empty list. -/
inductive EPOFetch where
  | failure
  | page (elems : List EPOExchangeDoc)

/-- The pagination loop of EPOScraper.search, returning the accumulated
documents and the number of upstream calls consumed.  The fetch is wrapped
in try/except: a failure breaks the loop, keeping the accumulated
documents; an empty batch breaks; a short batch is appended and breaks. -/
def epo_searchLoop (now : PyDateTime) (max_results : Nat) :
    List EPOFetch → List ScientificDocument → List ScientificDocument × Nat
  | [], docs => (docs, 0)
  | f :: fs, docs =>
    if docs.length < max_results then
      match f with
      | .failure => (docs, 1)
      | .page elems =>
        let batch := elems.filterMap (epo_element_to_document now)
        if batch.isEmpty then (docs, 1)
        else if batch.length < PAGE_SIZE then (docs ++ batch, 1)
        else
          let r := epo_searchLoop now max_results fs (docs ++ batch)
          (r.1, r.2 + 1)
    else (docs, 0)

/-- EPOScraper.__init__: the OPS client exists exactly when both credential
values are truthy. -/
def epo_mk_client (epo_key epo_secret : Option String) : Option Unit :=
  if pyTruthy epo_key && pyTruthy epo_secret then some () else none

/-- EPOScraper.search: with no client configured it logs a warning and
returns the empty list without touching the upstream; otherwise it runs the
pagination loop and truncates to max_results. -/
def epo_search (now : PyDateTime) (client : Option Unit) (max_results : Nat)
    (pages : List EPOFetch) : List ScientificDocument × Nat :=
  match client with
  | none => ([], 0)
  | some _ =>
    let r := epo_searchLoop now max_results pages []
    (r.1.take max_results, r.2)

/-- One SerpAPI organic result: the fields
GooglePatentsScraper._serpapi_result_to_document reads. -/
structure SerpResult where
  title : Option String := none
  patent_id : Option String := none
  snippet : Option String := none
  inventor : Option String := none
  assignee : Option String := none
  priority_date : Option String := none
  filing_date : Option String := none
  link : Option String := none
  pdf : Option String := none
  grant_date : Option String := none
  thumbnail : Option String := none

/-- Python a or b on two optional strings. -/
def pyOrOpt (a b : Option String) : Option String :=
  if pyTruthy a then a else b

/-- GooglePatentsScraper._serpapi_result_to_document: none exactly when the
title field is absent or empty. -/
def serpapi_result_to_document (now : PyDateTime) (result : SerpResult) :
    Option ScientificDocument :=
  let title := result.title.getD ""
  if title = "" then none
  else
    let patent_id := result.patent_id.getD ""
    let identifiers : List Identifier :=
      if patent_id ≠ "" then [⟨"patent_number", patent_id⟩] else []
    let inventor := result.inventor.getD ""
    let authors : List Author :=
      if inventor ≠ "" then [Author.mk inventor none] else []
    let date_str := pyOrOpt result.priority_date result.filing_date
    let pub_date :=
      if pyTruthy date_str then parseIsoDate? (date_str.getD "") else none
    some
      { source := .google_patents
        title := title
        abstract := result.snippet
        authors := authors
        publication_date := pub_date
        identifiers := identifiers
        full_text_url :=
          match result.pdf with
          | some p => some p
          | none => result.link
        journal_or_office := some (result.assignee.getD "")
        metadata :=
          [("grant_date", optStrJson result.grant_date),
           ("thumbnail", optStrJson result.thumbnail)]
        scraped_at := now }

/-- A value in the SerpAPI request parameter dict. -/
inductive ParamVal where
  | str (s : String)
  | num (n : Nat)
deriving Repr, DecidableEq

/-- The request parameters GooglePatentsScraper._search_serpapi builds for
one page: engine, query, key and page always; the date-bound keys before
and after only when date_from is truthy, with before set to date_to or the
empty string. -/
def serpapi_params (query api_key : String) (page : Nat)
    (date_from date_to : Option String) : List (String × ParamVal) :=
  let ps : List (String × ParamVal) :=
    [("engine", .str "google_patents"), ("q", .str query),
     ("api_key", .str api_key), ("page", .num page)]
  if pyTruthy date_from then
    ps ++ [("before", .str (pyOrElse date_to "")),
           ("after", .str (date_from.getD ""))]
  else ps

/-- The inner result loop of _search_serpapi: map each organic result,
append the mapped documents, stop once max_results documents are held. -/
def serpInner (now : PyDateTime) (cap : Nat) (docs : List ScientificDocument) :
    List SerpResult → List ScientificDocument
  | [] => docs
  | r :: rs =>
    match serpapi_result_to_document now r with
    | none => serpInner now cap docs rs
    | some d =>
      let docs2 := docs ++ [d]
      if cap ≤ docs2.length then docs2 else serpInner now cap docs2 rs

/-- The page loop of _search_serpapi over the organic_results list of each
successive page: stop on an empty page or once max_results documents are
held, otherwise keep paging. -/
def serpapi_searchLoop (now : PyDateTime) (max_results : Nat) :
    List (List SerpResult) → List ScientificDocument → List ScientificDocument
  | [], docs => docs
  | organic :: pages, docs =>
    if docs.length < max_results then
      if organic.isEmpty then docs
      else serpapi_searchLoop now max_results pages (serpInner now max_results docs organic)
    else docs

/-- GooglePatentsScraper._search_serpapi over the per-page organic result
lists, ending with the final truncation to max_results. -/
def serpapi_search (now : PyDateTime) (max_results : Nat)
    (pages : List (List SerpResult)) : List ScientificDocument :=
  (serpapi_searchLoop now max_results pages []).take max_results

/-- One HTML result block, characterized by the projections
GooglePatentsScraper._html_result_to_document makes on it: the stripped
text of the first heading-like element, the stripped text of the whole
block, the href of the first patent-detail anchor, and the stripped text of
the first snippet-like element. -/
structure HtmlResult where
  title_elem_text : Option String := none
  full_text : String := ""
  link_href : Option String := none
  snippet_text : Option String := none

/-- The title _html_result_to_document computes: the heading text, else the
first 200 characters of the block text. -/
def ghtml_title (r : HtmlResult) : String :=
  let t := r.title_elem_text.getD ""
  if t = "" then String.mk (r.full_text.data.take 200) else t

/-- GooglePatentsScraper._html_result_to_document: none exactly when the
computed title is empty. -/
def ghtml_result_to_document (now : PyDateTime) (r : HtmlResult) :
    Option ScientificDocument :=
  let title := ghtml_title r
  if title = "" then none
  else
    let patent_id :=
      match r.link_href with
      | none => ""
      | some href =>
        match href.splitOn "/patent/" with
        | _ :: p1 :: _ => beforeSlash p1
        | _ => ""
    let full_text_url :=
      match r.link_href with
      | none => none
      | some href =>
        if href.startsWith "/" then some ("https://patents.google.com" ++ href)
        else some href
    let identifiers : List Identifier :=
      if patent_id ≠ "" then [⟨"patent_number", patent_id⟩] else []
    some
      { source := .google_patents
        title := title
        abstract := r.snippet_text
        identifiers := identifiers
        full_text_url := full_text_url
        journal_or_office := some "Google Patents"
        scraped_at := now }

/-- Result of one run of the scrape command loop in cli.py: the sources
whose search was invoked, the running total of documents written, and
whether an uncaught adapter error aborted the run. -/
structure ScrapeOutcome where
  invoked : List String
  total : Nat
  aborted : Bool
deriving Repr, DecidableEq

/-- The per-source loop of the scrape command: invoke search on each
resolved source in order; an exception raised by one search propagates
(there is no try/except around the loop body), aborting the remaining
sources; otherwise append the documents and add the written count to the
total.  An empty result skips the write, contributing zero. -/
def scrape_loop (results : String → Except Unit (List ScientificDocument)) :
    List String → ScrapeOutcome
  | [] => ⟨[], 0, false⟩
  | n :: ns =>
    match results n with
    | .error _ => ⟨[n], 0, true⟩
    | .ok docs =>
      let rest := scrape_loop results ns
      ⟨n :: rest.invoked, docs.length + rest.total, rest.aborted⟩

/-- utils/rate_limiter.py RateLimiter state: the configured rate and the
time of the last permitted call.  Time is modelled as exact rational
wall-clock seconds; time.sleep(x) wakes exactly x seconds later, and the
monotonic() call after the sleep reads exactly the wake time. -/
structure RateLimiterState where
  rate : ℚ
  last_request_time : ℚ

/-- RateLimiter(requests_per_second): initial state, with the last-request
time zero as in the source. -/
def mkRateLimiter (requests_per_second : ℚ) : RateLimiterState :=
  ⟨requests_per_second, 0⟩

/-- RateLimiter.wait called at clock time now: returns the time at which
the call returns (the permitted time recorded as last_request_time) and the
updated state.  The lock serializes callers, so consecutive completed calls
compose sequentially. -/
def rateLimiter_wait (σ : RateLimiterState) (now : ℚ) : ℚ × RateLimiterState :=
  let min_interval := 1 / σ.rate
  let elapsed := now - σ.last_request_time
  if elapsed < min_interval then
    let ret := now + (min_interval - elapsed)
    (ret, ⟨σ.rate, ret⟩)
  else (now, ⟨σ.rate, now⟩)

/-- A fixed construction-time UTC timestamp for concrete runs. -/
def tNow : PyDateTime := ⟨2025, 6, 1, 12, 0, 0, 0⟩

/-- A fully populated document exercising every field, as the USPTO mapper
builds them. -/
def sampleDoc : ScientificDocument :=
  { source := .uspto
    title := "Novel compound"
    abstract := some "A pharmaceutical composition"
    authors := [⟨"Jane Doe", some "MIT"⟩, ⟨"John Smith", none⟩]
    publication_date := some ⟨2024, 2, 29⟩
    identifiers := [⟨"patent_number", "11234567"⟩, ⟨"doi", "10.1/x"⟩]
    chemical_entities := ["Aspirin"]
    full_text_url := some "https://patents.google.com/patent/US11234567"
    keywords := ["drug", "compound"]
    journal_or_office := some "USPTO"
    metadata := [("cpc_codes", Json.arr [Json.str "A61K31/00"]),
                 ("assignees", Json.arr [Json.str "Pharma Corp"])]
    scraped_at := ⟨2025, 6, 1, 12, 30, 5, 123456⟩ }

/-- A MEDLINE record bearing a title. -/
def recAlpha : MedlineRecord := { TI := some "Alpha", PMID := some "1" }

/-- A second MEDLINE record bearing a title. -/
def recBeta : MedlineRecord := { TI := some "Beta", PMID := some "2" }

/-- A titled PatentsView patent. -/
def pvTitled : PVPatent := { patent_id := some "111", patent_title := some "Alpha patent" }

/-- A titled EPO exchange-document. -/
def epoTitled : EPOExchangeDoc := { title_en := some (some "Drug delivery") }

/-- A titled SerpAPI result. -/
def serpTitled : SerpResult := { title := some "Compound", patent_id := some "US1A" }

/-- A USPTO upstream trace: a successful full-cursor page bearing one
titled patent, then a fetch that fails after retries exhaust. -/
def usptoRun : List PVFetch :=
  [PVFetch.response ⟨some [pvTitled], some "cur"⟩, PVFetch.failure]

/-- A per-source search outcome function for a two-source run in which the
first source raises out of search and the second would succeed with one
document. -/
def resultsDemo : String → Except Unit (List ScientificDocument) :=
  fun n => if n = "pubmed" then .error () else .ok [sampleDoc]

/-- The documents one EPO upstream page contributes, in received order. -/
def epoPageDocs (now : PyDateTime) : EPOFetch → List ScientificDocument
  | .failure => []
  | .page elems => elems.filterMap (epo_element_to_document now)

/-- All EPO upstream documents in received order. -/
def epoUpstreamDocs (now : PyDateTime) (pages : List EPOFetch) :
    List ScientificDocument :=
  (pages.map (epoPageDocs now)).flatten

/-- All SerpAPI upstream documents in received order. -/
def serpUpstreamDocs (now : PyDateTime) (pages : List (List SerpResult)) :
    List ScientificDocument :=
  (pages.map (fun organic => organic.filterMap (serpapi_result_to_document now))).flatten

/-- The documents one PubMed batch contributes, in received order. -/
def pmBatchDocs (now : PyDateTime) : PMFetch → List ScientificDocument
  | .failure => []
  | .records recs => recs.filterMap (pubmed_record_to_document now)

/-- All PubMed upstream documents in received order. -/
def pmUpstreamDocs (now : PyDateTime) (batches : List PMFetch) :
    List ScientificDocument :=
  (batches.map (pmBatchDocs now)).flatten

/-- Protocol-conformant PubMed batch responses: each consumed batch holds
at most the number of records the loop requested via retmax. -/
def pubmed_honestB : Nat → List PMFetch → Bool
  | _, [] => true
  | remaining, b :: bs =>
    if remaining = 0 then true
    else
      match b with
      | .failure => true
      | .records recs =>
        decide (recs.length ≤ min BATCH_SIZE remaining) &&
          pubmed_honestB (remaining - min BATCH_SIZE remaining) bs

/-- The document the PubMed mapper produces from recAlpha. -/
def docAlpha : ScientificDocument :=
  (pubmed_record_to_document tNow recAlpha).getD
    { source := .pubmed, title := "", scraped_at := tNow }

theorem digitVal_digitChar (k : Nat) (h : k < 10) : digitVal? (digitChar k) = some k := by
  interval_cases k <;> rfl

theorem parse_date_digits (y m dd : Nat) (h : PyDate.validB ⟨y, m, dd⟩ = true) :
    parseIsoDateChars? [digitChar (y / 1000 % 10), digitChar (y / 100 % 10),
      digitChar (y / 10 % 10), digitChar (y % 10), '-',
      digitChar (m / 10 % 10), digitChar (m % 10), '-',
      digitChar (dd / 10 % 10), digitChar (dd % 10)] = some ⟨y, m, dd⟩ := by
  have hv := h
  simp only [PyDate.validB, Bool.and_eq_true, decide_eq_true_eq] at h
  obtain ⟨⟨⟨⟨⟨h1, h2⟩, h3⟩, h4⟩, h5⟩, h6⟩ := h
  simp only [parseIsoDateChars?]
  have d10 : ∀ n : Nat, n % 10 < 10 := fun n => Nat.mod_lt n (by omega)
  simp only [digitVal_digitChar _ (d10 _), Option.bind_eq_bind, Option.some_bind]
  have g1 : y / 100 / 10 = y / 1000 := by rw [Nat.div_div_eq_div_mul]
  have g2 : y / 10 / 10 = y / 100 := by rw [Nat.div_div_eq_div_mul]
  have hy : ((y / 1000 % 10 * 10 + y / 100 % 10) * 10 + y / 10 % 10) * 10 + y % 10 = y := by
    omega
  have hm : m / 10 % 10 * 10 + m % 10 = m := by omega
  have hdm : daysInMonth y m ≤ 31 := by
    unfold daysInMonth
    split <;> split <;> omega
  have hd : dd / 10 % 10 * 10 + dd % 10 = dd := by omega
  rw [hy, hm, hd]
  simp only [and_self, if_true, hv]

theorem parseIsoDate_isoString (d : PyDate) (h : d.validB = true) :
    parseIsoDate? d.isoString = some d := by
  obtain ⟨y, m, dd⟩ := d
  simp only [PyDate.isoString, parseIsoDate?, dateIsoChars]
  exact parse_date_digits y m dd h

theorem parseIsoDateTime_isoString (t : PyDateTime) (h : t.validB = true) :
    parseIsoDateTime? t.isoString = some t := by
  obtain ⟨y, m, dd, hh, mi, ss, us⟩ := t
  have hv := h
  simp only [PyDateTime.validB, Bool.and_eq_true, decide_eq_true_eq] at h
  obtain ⟨⟨⟨⟨hdate, hhh⟩, hmi⟩, hss⟩, hus⟩ := h
  simp only [PyDateTime.isoString, parseIsoDateTime?, dateTimeIsoChars, dateIsoChars,
    List.cons_append, List.nil_append, List.append_assoc]
  simp only [parseIsoDateTimeChars?]
  rw [parse_date_digits y m dd hdate]
  have d10 : ∀ n : Nat, n % 10 < 10 := fun n => Nat.mod_lt n (by omega)
  simp only [digitVal_digitChar _ (d10 _), Option.bind_eq_bind, Option.some_bind,
    and_self, if_true]
  have hh2 : hh / 10 % 10 * 10 + hh % 10 = hh := by omega
  have hm2 : mi / 10 % 10 * 10 + mi % 10 = mi := by omega
  have hs2 : ss / 10 % 10 * 10 + ss % 10 = ss := by omega
  rw [hh2, hm2, hs2]
  by_cases h0 : us = 0
  · subst h0
    simp only [if_pos rfl]
    simp only [parseIsoFracChars?, Option.some_bind]
    simp [hv]
  · rw [if_neg h0]
    simp only [parseIsoFracChars?]
    simp only [digitVal_digitChar _ (d10 _), Option.bind_eq_bind, Option.some_bind]
    have gg1 : us / 10 / 10 = us / 100 := by rw [Nat.div_div_eq_div_mul]
    have gg2 : us / 100 / 10 = us / 1000 := by rw [Nat.div_div_eq_div_mul]
    have gg3 : us / 1000 / 10 = us / 10000 := by rw [Nat.div_div_eq_div_mul]
    have gg4 : us / 10000 / 10 = us / 100000 := by rw [Nat.div_div_eq_div_mul]
    have hu : (((((us / 100000 % 10) * 10 + us / 10000 % 10) * 10 + us / 1000 % 10) * 10
        + us / 100 % 10) * 10 + us / 10 % 10) * 10 + us % 10 = us := by
      omega
    rw [hu]
    simp [hv]

theorem SourceType.ofValue_value (s : SourceType) : SourceType.ofValue? s.value = some s := by
  cases s <;> rfl

theorem author_fromJson_toJson (a : Author) : Author.fromJson? a.toJson = some a := by
  obtain ⟨n, aff⟩ := a
  cases aff <;> rfl

theorem identifier_fromJson_toJson (i : Identifier) : Identifier.fromJson? i.toJson = some i := by
  obtain ⟨t, v⟩ := i
  rfl

theorem validateList_author (as : List Author) :
    validateList? Author.fromJson? (as.map Author.toJson) = some as := by
  induction as with
  | nil => rfl
  | cons a rest ih =>
    simp [validateList?, author_fromJson_toJson, ih]

theorem validateList_identifier (is : List Identifier) :
    validateList? Identifier.fromJson? (is.map Identifier.toJson) = some is := by
  induction is with
  | nil => rfl
  | cons i rest ih =>
    simp [validateList?, identifier_fromJson_toJson, ih]

theorem validateList_str (xs : List String) :
    validateList? asStr? (xs.map Json.str) = some xs := by
  induction xs with
  | nil => rfl
  | cons x rest ih =>
    simp [validateList?, asStr?, ih]

theorem asOptStr_optStrJson (o : Option String) : asOptStr? (optStrJson o) = some o := by
  cases o <;> rfl

theorem validate_dump (d : ScientificDocument)
    (h1 : ∀ p, d.publication_date = some p → p.validB = true)
    (h2 : d.scraped_at.validB = true) :
    ScientificDocument.validateJson? d.dumpJson = some d := by
  obtain ⟨src, title, abs, auths, pd, ids, chems, url, kws, off, meta, scr⟩ := d
  simp only at h1 h2
  simp only [ScientificDocument.dumpJson, ScientificDocument.validateJson?]
  simp only [List.lookup, String.reduceBEq]
  simp only [optStrField?, List.lookup, String.reduceBEq]
  simp only [Option.bind_eq_bind, Option.some_bind, asStr?, asOptStr_optStrJson,
    SourceType.ofValue_value, validateList_author, validateList_identifier, asStrList?,
    validateList_str, parseIsoDateTime_isoString scr h2]
  cases pd with
  | none => simp
  | some p => simp [parseIsoDate_isoString p (h1 p rfl)]

/-- C5: serializing a ScientificDocument to its line-delimited JSON form
with append_documents and reading it back with read_documents yields a
document equal in all fields, including the nested authors and identifiers
lists, the metadata mapping, and the exact publication date.  The
hypotheses state that the dates held by the document are ones the Python
date constructors can represent. -/
theorem C5_append_read_roundtrip (d : ScientificDocument)
    (h1 : ∀ p, d.publication_date = some p → p.validB = true)
    (h2 : d.scraped_at.validB = true) :
    read_documents (some (append_documents none [d]).1) =
      ⟨[d], none⟩ := by
  simp [append_documents, read_documents, readLines, validate_dump d h1 h2]

/-- Witness for C5 at a document populating every field. -/
theorem C5_append_read_roundtrip_witness :
    read_documents (some (append_documents none [sampleDoc]).1) =
      ⟨[sampleDoc], none⟩ :=
  C5_append_read_roundtrip sampleDoc
    (fun p hp => by
      have : p = ⟨2024, 2, 29⟩ := by
        simpa [sampleDoc] using hp.symm
      rw [this]
      decide)
    (by decide)

/-- C10 amended: count_documents on a missing file returns 0 while
read_documents raises FileNotFoundError; on an existing file whose
non-blank lines all validate, count_documents returns the number of
non-blank lines, which equals the number of documents read_documents
yields. -/
theorem C10_count_matches_read :
    count_documents none = 0 ∧
    read_documents none = ⟨[], some .fileNotFound⟩ ∧
    (∀ ls : List JsonlLine, (readLines ls).error = none →
      count_documents (some ls) = (read_documents (some ls)).yielded.length) := by
  refine ⟨rfl, rfl, fun ls h => ?_⟩
  induction ls with
  | nil => rfl
  | cons l rest ih =>
    cases l with
    | blank =>
      simp only [readLines] at h
      simpa [count_documents, read_documents, readLines, JsonlLine.nonBlank,
        List.countP_cons] using ih h
    | record j =>
      simp only [readLines] at h
      cases hv : ScientificDocument.validateJson? j with
      | none => rw [hv] at h; cases h
      | some d =>
        rw [hv] at h
        simp only at h
        have := ih h
        simp only [count_documents, read_documents, readLines, hv,
          JsonlLine.nonBlank, List.countP_cons, List.length_cons, if_true,
          decide_eq_true_eq] at this ⊢
        omega

/-- Witness for C10 at a one-record file produced from sampleDoc plus a
blank line. -/
theorem C10_count_matches_read_witness :
    count_documents (some [JsonlLine.record sampleDoc.dumpJson, JsonlLine.blank]) =
      (read_documents (some [JsonlLine.record sampleDoc.dumpJson,
        JsonlLine.blank])).yielded.length :=
  C10_count_matches_read.2.2 [JsonlLine.record sampleDoc.dumpJson, JsonlLine.blank]
    (by rfl)

/-- C10 counterexample to the claim as stated: on an existing file whose
single non-blank line is not a valid serialized document, count_documents
returns 1 while read_documents yields no documents, raising
ValidationError instead. -/
theorem C10_invalid_line_counterexample :
    count_documents (some [JsonlLine.record Json.null]) = 1 ∧
    read_documents (some [JsonlLine.record Json.null]) =
      ⟨[], some .validationError⟩ ∧
    (read_documents (some [JsonlLine.record Json.null])).yielded.length ≠
      count_documents (some [JsonlLine.record Json.null]) := by
  refine ⟨rfl, rfl, by decide⟩

/-- C6: the PubMed date parser maps 2024 Mar 15 to 2024-03-15, 2024 Jan
and 2024 to 2024-01-01, the empty string and a string with a non-numeric
year segment to none, and defaults a missing month or day to 1. -/
theorem C6_pubmed_parse_date :
    pubmed_parse_date "2024 Mar 15" = some ⟨2024, 3, 15⟩ ∧
    pubmed_parse_date "2024 Jan" = some ⟨2024, 1, 1⟩ ∧
    pubmed_parse_date "2024" = some ⟨2024, 1, 1⟩ ∧
    pubmed_parse_date "" = none ∧
    pubmed_parse_date "invalid" = none ∧
    (∀ s p ps, pySplitWs s = p :: ps → pyInt? p = none →
      pubmed_parse_date s = none) ∧
    (∀ s p, pySplitWs s = [p] →
      ∀ d, pubmed_parse_date s = some d → d.month = 1 ∧ d.day = 1) ∧
    (∀ s p q, pySplitWs s = [p, q] →
      ∀ d, pubmed_parse_date s = some d → d.day = 1) := by
  refine ⟨by rfl, by rfl, by rfl, by rfl, by rfl, ?_, ?_, ?_⟩
  · intro s p ps hsplit hint
    by_cases hs : s = ""
    · simp [pubmed_parse_date, hs]
    · simp [pubmed_parse_date, hs, hsplit, hint]
  · intro s p hsplit d hd
    by_cases hs : s = ""
    · rw [hs] at hsplit
      exact List.noConfusion (show ([] : List String) = p :: [] from hsplit)
    · simp only [pubmed_parse_date, hs, if_false, hsplit] at hd
      cases hy : pyInt? p with
      | none => rw [hy] at hd; cases hd
      | some y =>
        rw [hy] at hd
        simp only [mkPyDate?] at hd
        split at hd
        · cases hd with
          | refl => exact ⟨rfl, rfl⟩
        · cases hd
  · intro s p q hsplit d hd
    by_cases hs : s = ""
    · rw [hs] at hsplit
      exact List.noConfusion (show ([] : List String) = p :: [p, q].tail from hsplit)
    · simp only [pubmed_parse_date, hs, if_false, hsplit] at hd
      cases hy : pyInt? p with
      | none => rw [hy] at hd; cases hd
      | some y =>
        rw [hy] at hd
        simp only [mkPyDate?] at hd
        split at hd
        · cases hd with
          | refl => exact rfl
        · cases hd

/-- Witness for C6, discharging the universally quantified default clauses
on concrete inputs. -/
theorem C6_pubmed_parse_date_witness :
    pubmed_parse_date "oops 3" = none ∧
    (PyDate.month ⟨2024, 1, 1⟩ = 1 ∧ PyDate.day ⟨2024, 1, 1⟩ = 1) ∧
    PyDate.day ⟨2024, 1, 1⟩ = 1 :=
  ⟨C6_pubmed_parse_date.2.2.2.2.2.1 "oops 3" "oops" ["3"] (by rfl) (by rfl),
   C6_pubmed_parse_date.2.2.2.2.2.2.1 "2024" "2024" (by rfl) ⟨2024, 1, 1⟩ (by rfl),
   C6_pubmed_parse_date.2.2.2.2.2.2.2 "2024 Foo" "2024" "Foo" (by rfl) ⟨2024, 1, 1⟩ (by rfl)⟩

/-- C7: when the EPO adapter is constructed without both credential values,
its client is none and search returns the empty sequence immediately,
consuming zero upstream calls and raising nothing, for every query shape
and every potential upstream behavior. -/
theorem C7_epo_without_credentials (epo_key epo_secret : Option String)
    (h : ¬(pyTruthy epo_key = true ∧ pyTruthy epo_secret = true))
    (now : PyDateTime) (max_results : Nat) (pages : List EPOFetch) :
    epo_search now (epo_mk_client epo_key epo_secret) max_results pages = ([], 0) := by
  have hc : epo_mk_client epo_key epo_secret = none := by
    unfold epo_mk_client
    cases hk : pyTruthy epo_key <;> cases hs : pyTruthy epo_secret <;> simp_all
  rw [hc]
  rfl

/-- Witness for C7: a key with no secret, in front of an upstream that
would deliver a page and then fail. -/
theorem C7_epo_without_credentials_witness :
    epo_search tNow (epo_mk_client (some "key") none) 100
      [EPOFetch.page [epoTitled], EPOFetch.failure] = ([], 0) :=
  C7_epo_without_credentials (some "key") none (by decide) tNow 100
    [EPOFetch.page [epoTitled], EPOFetch.failure]

/-- C8: the SerpAPI request carries the date-bound keys exactly when
date_from is truthy; then after holds date_from and before holds date_to
or the empty string; when date_from is not supplied neither key is
present, so date_to is never encoded on its own. -/
theorem C8_serpapi_date_params (query api_key : String) (page : Nat)
    (date_from date_to : Option String) :
    (pyTruthy date_from = true →
      (serpapi_params query api_key page date_from date_to).lookup "after"
          = some (.str (date_from.getD "")) ∧
      (serpapi_params query api_key page date_from date_to).lookup "before"
          = some (.str (pyOrElse date_to ""))) ∧
    (pyTruthy date_from = false →
      (serpapi_params query api_key page date_from date_to).lookup "after" = none ∧
      (serpapi_params query api_key page date_from date_to).lookup "before" = none) := by
  constructor
  · intro ht
    simp [serpapi_params, ht, List.lookup]
  · intro hf
    simp [serpapi_params, hf, List.lookup]

/-- Witness for C8, one instantiation per branch. -/
theorem C8_serpapi_date_params_witness :
    ((serpapi_params "q" "k" 0 (some "2020-01-01") none).lookup "after"
        = some (.str "2020-01-01") ∧
      (serpapi_params "q" "k" 0 (some "2020-01-01") none).lookup "before"
        = some (.str "") ∧
      (serpapi_params "q" "k" 0 none (some "2021-01-01")).lookup "after" = none ∧
      (serpapi_params "q" "k" 0 none (some "2021-01-01")).lookup "before" = none) := by
  have h1 := (C8_serpapi_date_params "q" "k" 0 (some "2020-01-01") none).1 (by decide)
  have h2 := (C8_serpapi_date_params "q" "k" 0 none (some "2021-01-01")).2 (by decide)
  exact ⟨h1.1, h1.2, h2.1, h2.2⟩

/-- C9: for a shared limiter with positive configured rate, a second
completed wait call (entered no earlier than the first returned, as the
lock and program order force) returns no earlier than one minimum interval
after the permitted time of the first call, regardless of how long the limiter
sat idle beforehand. -/
theorem C9_rate_limiter_interval (σ : RateLimiterState) (t1 t2 : ℚ)
    (hrate : 0 < σ.rate) (h12 : (rateLimiter_wait σ t1).1 ≤ t2) :
    (rateLimiter_wait σ t1).1 + 1 / σ.rate ≤
      (rateLimiter_wait (rateLimiter_wait σ t1).2 t2).1 := by
  have hpos : 0 < 1 / σ.rate := by positivity
  unfold rateLimiter_wait at h12 ⊢
  dsimp only at h12 ⊢
  split_ifs at h12 ⊢ <;> simp_all <;> linarith

/-- Witness for C9: rate 2 per second, first call at time 1 on a fresh
limiter, second call entered the moment the first returns. -/
theorem C9_rate_limiter_interval_witness :
    (rateLimiter_wait (mkRateLimiter 2) 1).1 + 1 / (mkRateLimiter 2).rate ≤
      (rateLimiter_wait (rateLimiter_wait (mkRateLimiter 2) 1).2
        (rateLimiter_wait (mkRateLimiter 2) 1).1).1 :=
  C9_rate_limiter_interval (mkRateLimiter 2) 1 (rateLimiter_wait (mkRateLimiter 2) 1).1
    (by norm_num [mkRateLimiter]) le_rfl

/-- C3: every document any record-mapping function returns has a non-empty
title, and a record or result whose extracted title is empty or absent
maps to none and is thereby dropped. -/
theorem C3_title_required (now : PyDateTime) :
    (∀ r d, pubmed_record_to_document now r = some d → d.title ≠ "") ∧
    (∀ r : MedlineRecord, r.TI.getD "" = "" →
      pubmed_record_to_document now r = none) ∧
    (∀ p d, uspto_patent_to_document now p = some d → d.title ≠ "") ∧
    (∀ p : PVPatent, p.patent_title.getD "" = "" →
      uspto_patent_to_document now p = none) ∧
    (∀ e d, epo_element_to_document now e = some d → d.title ≠ "") ∧
    (∀ e : EPOExchangeDoc, epo_title e = "" →
      epo_element_to_document now e = none) ∧
    (∀ r d, serpapi_result_to_document now r = some d → d.title ≠ "") ∧
    (∀ r : SerpResult, r.title.getD "" = "" →
      serpapi_result_to_document now r = none) ∧
    (∀ r d, ghtml_result_to_document now r = some d → d.title ≠ "") ∧
    (∀ r : HtmlResult, ghtml_title r = "" →
      ghtml_result_to_document now r = none) := by
  refine ⟨?_, ?_, ?_, ?_, ?_, ?_, ?_, ?_, ?_, ?_⟩
  · intro r d h
    unfold pubmed_record_to_document at h
    by_cases ht : r.TI.getD "" = ""
    · simp [ht] at h
    · simp only [ht, if_false] at h
      obtain rfl := Option.some.inj h.symm
      simpa using ht
  · intro r ht
    simp [pubmed_record_to_document, ht]
  · intro p d h
    unfold uspto_patent_to_document at h
    by_cases ht : p.patent_title.getD "" = ""
    · simp [ht] at h
    · simp only [ht, if_false] at h
      obtain rfl := Option.some.inj h.symm
      simpa using ht
  · intro p ht
    simp [uspto_patent_to_document, ht]
  · intro e d h
    unfold epo_element_to_document at h
    by_cases ht : epo_title e = ""
    · simp [ht] at h
    · simp only [ht, if_false] at h
      obtain rfl := Option.some.inj h.symm
      simpa using ht
  · intro e ht
    simp [epo_element_to_document, ht]
  · intro r d h
    unfold serpapi_result_to_document at h
    by_cases ht : r.title.getD "" = ""
    · simp [ht] at h
    · simp only [ht, if_false] at h
      obtain rfl := Option.some.inj h.symm
      simpa using ht
  · intro r ht
    simp [serpapi_result_to_document, ht]
  · intro r d h
    unfold ghtml_result_to_document at h
    by_cases ht : ghtml_title r = ""
    · simp [ht] at h
    · simp only [ht, if_false] at h
      obtain rfl := Option.some.inj h.symm
      simpa using ht
  · intro r ht
    simp [ghtml_result_to_document, ht]

/-- Witness for C3: each mapper drops its empty-titled input, and each
mapper yields a non-empty title on a titled input. -/
theorem C3_title_required_witness :
    pubmed_record_to_document tNow {} = none ∧
    uspto_patent_to_document tNow {} = none ∧
    epo_element_to_document tNow {} = none ∧
    serpapi_result_to_document tNow {} = none ∧
    ghtml_result_to_document tNow {} = none :=
  ⟨(C3_title_required tNow).2.1 {} rfl,
   (C3_title_required tNow).2.2.2.1 {} rfl,
   (C3_title_required tNow).2.2.2.2.2.1 {} rfl,
   (C3_title_required tNow).2.2.2.2.2.2.2.1 {} rfl,
   (C3_title_required tNow).2.2.2.2.2.2.2.2.2 {} rfl⟩

/-- C1 counterexample to the claim as stated: a USPTO run that accumulates
one document from a successful first page and then suffers a page fetch
failure raises the failure out of search instead of returning the
accumulated documents. -/
theorem C1_uspto_raises_counterexample :
    uspto_search tNow 200 usptoRun = .error () ∧
    (uspto_patent_to_document tNow pvTitled).isSome = true := by
  constructor
  · rfl
  · rfl

/-- C1 amended: only the EPO adapter catches a page-level fetch failure at
its pagination loop, terminating early with the documents accumulated so
far; in the USPTO and PubMed adapters the failure propagates out of
search, discarding the accumulated documents. -/
theorem C1_page_failure_policy :
    (∀ (now : PyDateTime) (max_results : Nat) (rest : List EPOFetch)
        (docs : List ScientificDocument),
      (epo_searchLoop now max_results (EPOFetch.failure :: rest) docs).1 = docs) ∧
    (∀ (now : PyDateTime) (max_results : Nat) (rest : List PVFetch)
        (docs : List ScientificDocument), docs.length < max_results →
      uspto_searchLoop now max_results (PVFetch.failure :: rest) docs = .error ()) ∧
    (∀ (now : PyDateTime) (remaining : Nat) (bs : List PMFetch), remaining ≠ 0 →
      pubmed_fetchLoop now remaining (PMFetch.failure :: bs) = .error ()) := by
  refine ⟨?_, ?_, ?_⟩
  · intro now max_results rest docs
    unfold epo_searchLoop
    split <;> rfl
  · intro now max_results rest docs h
    simp [uspto_searchLoop, h]
  · intro now remaining bs h
    simp [pubmed_fetchLoop, h]

/-- Witness for C1 amended: concrete one-step runs of each loop. -/
theorem C1_page_failure_policy_witness :
    (epo_searchLoop tNow 100 [EPOFetch.failure] []).1 = ([] : List ScientificDocument) ∧
    uspto_searchLoop tNow 100 [PVFetch.failure] [] = .error () ∧
    pubmed_fetchLoop tNow 100 [PMFetch.failure] = .error () :=
  ⟨C1_page_failure_policy.1 tNow 100 [] [],
   C1_page_failure_policy.2.1 tNow 100 [] [] (by decide),
   C1_page_failure_policy.2.2 tNow 100 [] (by decide)⟩

/-- C2 counterexample to the claim as stated: in a two-source run where
the first adapter raises, the orchestrator loop aborts without invoking
the second adapter, and the total stays 0 even though the second adapter
would have produced a document. -/
theorem C2_abort_counterexample :
    scrape_loop resultsDemo ["pubmed", "uspto"] = ⟨["pubmed"], 0, true⟩ ∧
    resultsDemo "uspto" = .ok [sampleDoc] := by
  constructor
  · rfl
  · rfl

/-- The number of documents one source contributes to the total: the size
of its successful search result, 0 if it raised. -/
def okLength (results : String → Except Unit (List ScientificDocument))
    (n : String) : Nat :=
  match results n with
  | .ok ds => ds.length
  | .error _ => 0

/-- C2 amended: the scrape loop catches nothing: when every adapter
succeeds, all sources are invoked in order and the total sums the written
counts; when one adapter raises, the loop stops there, the remaining
sources are never invoked, and the total reflects only the sources before
the failure. -/
theorem C2_error_propagation
    (results : String → Except Unit (List ScientificDocument)) :
    (∀ names : List String, (∀ n ∈ names, (results n).isOk = true) →
      scrape_loop results names =
        ⟨names, (names.map (okLength results)).sum, false⟩) ∧
    (∀ (pre post : List String) (bad : String),
      (∀ n ∈ pre, (results n).isOk = true) → results bad = .error () →
      scrape_loop results (pre ++ bad :: post) =
        ⟨pre ++ [bad], (pre.map (okLength results)).sum, true⟩) := by
  constructor
  · intro names h
    induction names with
    | nil => rfl
    | cons n ns ih =>
      have hn := h n (by simp)
      cases hres : results n with
      | error e => rw [hres] at hn; cases hn
      | ok ds =>
        have ih2 := ih (fun x hx => h x (by simp [hx]))
        simp [scrape_loop, hres, ih2, okLength]
  · intro pre post bad hpre hbad
    induction pre with
    | nil =>
      simp [scrape_loop, hbad]
    | cons n ns ih =>
      have hn := hpre n (by simp)
      cases hres : results n with
      | error e => rw [hres] at hn; cases hn
      | ok ds =>
        have ih2 := ih (fun x hx => hpre x (by simp [hx]))
        simp [scrape_loop, hres, ih2, okLength]

/-- Witness for C2 amended: the all-success branch and the abort branch on
concrete two-source runs of resultsDemo (which raises only on pubmed). -/
theorem C2_error_propagation_witness :
    scrape_loop resultsDemo ["uspto", "epo"] = ⟨["uspto", "epo"], 2, false⟩ ∧
    scrape_loop resultsDemo ["uspto", "pubmed", "epo"] = ⟨["uspto", "pubmed"], 1, true⟩ :=
  ⟨(C2_error_propagation resultsDemo).1 ["uspto", "epo"] (by decide),
   (C2_error_propagation resultsDemo).2 ["uspto"] ["epo"] "pubmed" (by decide) (by rfl)⟩

theorem serpInner_spec (now : PyDateTime) (cap : Nat)
    (rs : List SerpResult) :
    ∀ docs, ∃ t, serpInner now cap docs rs = docs ++ t ∧
      List.Sublist t (rs.filterMap (serpapi_result_to_document now)) := by
  induction rs with
  | nil => intro docs; exact ⟨[], by simp [serpInner], by simp⟩
  | cons r rest ih =>
    intro docs
    cases h : serpapi_result_to_document now r with
    | none =>
      obtain ⟨t, h1, h2⟩ := ih docs
      exact ⟨t, by simp [serpInner, h, h1],
        by simpa [List.filterMap_cons, h] using h2⟩
    | some d =>
      by_cases hc : cap ≤ docs.length + 1
      · refine ⟨[d], by simp [serpInner, h, hc], ?_⟩
        simp only [List.filterMap_cons, h]
        exact (List.nil_sublist _).cons₂ d
      · obtain ⟨t, h1, h2⟩ := ih (docs ++ [d])
        refine ⟨d :: t, ?_, ?_⟩
        · have hc2 : ¬(cap ≤ (docs ++ [d]).length) := by
            simpa using hc
          simp only [serpInner, h, if_neg hc2, h1, List.append_assoc,
            List.singleton_append]
        · simp only [List.filterMap_cons, h]
          exact h2.cons₂ d

theorem serpLoop_spec (now : PyDateTime) (max_results : Nat)
    (pages : List (List SerpResult)) :
    ∀ docs, ∃ t, serpapi_searchLoop now max_results pages docs = docs ++ t ∧
      List.Sublist t (serpUpstreamDocs now pages) := by
  induction pages with
  | nil => intro docs; exact ⟨[], by simp [serpapi_searchLoop], by simp⟩
  | cons organic rest ih =>
    intro docs
    by_cases hlen : docs.length < max_results
    · by_cases hempty : organic.isEmpty
      · exact ⟨[], by simp [serpapi_searchLoop, hlen, hempty], by simp⟩
      · obtain ⟨t1, i1, i2⟩ := serpInner_spec now max_results organic docs
        obtain ⟨t2, l1, l2⟩ := ih (serpInner now max_results docs organic)
        refine ⟨t1 ++ t2, ?_, ?_⟩
        · have hstep : serpapi_searchLoop now max_results (organic :: rest) docs =
              serpapi_searchLoop now max_results rest
                (serpInner now max_results docs organic) := by
            simp [serpapi_searchLoop, hlen, hempty]
          rw [i1] at l1
          rw [hstep, i1, l1, List.append_assoc]
        · unfold serpUpstreamDocs
          simp only [List.map_cons, List.flatten_cons]
          exact List.Sublist.append i2 l2
    · exact ⟨[], by simp [serpapi_searchLoop, hlen], by simp⟩

theorem epoLoop_spec (now : PyDateTime) (max_results : Nat)
    (pages : List EPOFetch) :
    ∀ docs, ∃ t, (epo_searchLoop now max_results pages docs).1 = docs ++ t ∧
      List.Sublist t (epoUpstreamDocs now pages) := by
  induction pages with
  | nil => intro docs; exact ⟨[], by simp [epo_searchLoop], by simp⟩
  | cons f rest ih =>
    intro docs
    by_cases hlen : docs.length < max_results
    · cases f with
      | failure => exact ⟨[], by simp [epo_searchLoop, hlen], by simp⟩
      | page elems =>
        by_cases hempty : (elems.filterMap (epo_element_to_document now)).isEmpty
        · exact ⟨[], by simp [epo_searchLoop, hlen, hempty], by simp⟩
        · by_cases hshort :
            (elems.filterMap (epo_element_to_document now)).length < PAGE_SIZE
          · refine ⟨elems.filterMap (epo_element_to_document now),
              by simp [epo_searchLoop, hlen, hempty, hshort], ?_⟩
            unfold epoUpstreamDocs
            simp only [List.map_cons, List.flatten_cons, epoPageDocs]
            exact List.sublist_append_left _ _
          · obtain ⟨t, h1, h2⟩ :=
              ih (docs ++ elems.filterMap (epo_element_to_document now))
            refine ⟨elems.filterMap (epo_element_to_document now) ++ t, ?_, ?_⟩
            · simp [epo_searchLoop, hlen, hempty, hshort, h1]
            · unfold epoUpstreamDocs
              simp only [List.map_cons, List.flatten_cons, epoPageDocs]
              exact List.Sublist.append (List.Sublist.refl _) h2
    · exact ⟨[], by simp [epo_searchLoop, hlen], by simp⟩

theorem pubmed_loop_sublist (now : PyDateTime) (batches : List PMFetch) :
    ∀ remaining ds, pubmed_fetchLoop now remaining batches = .ok ds →
      List.Sublist ds (pmUpstreamDocs now batches) := by
  induction batches with
  | nil =>
    intro remaining ds h
    obtain rfl := Except.ok.inj h.symm
    simp
  | cons b bs ih =>
    intro remaining ds h
    by_cases hz : remaining = 0
    · rw [hz] at h
      simp only [pubmed_fetchLoop, if_pos rfl] at h
      obtain rfl := Except.ok.inj h.symm
      simp
    · simp only [pubmed_fetchLoop, if_neg hz] at h
      cases b with
      | failure => cases h
      | records recs =>
        cases hr : pubmed_fetchLoop now (remaining - min BATCH_SIZE remaining) bs with
        | error e => rw [hr] at h; cases h
        | ok rest =>
          rw [hr] at h
          simp only at h
          obtain rfl := Except.ok.inj h.symm
          unfold pmUpstreamDocs
          simp only [List.map_cons, List.flatten_cons, pmBatchDocs]
          exact List.Sublist.append (List.Sublist.refl _) (ih _ _ hr)

theorem pubmed_loop_length (now : PyDateTime) (batches : List PMFetch) :
    ∀ remaining ds, pubmed_honestB remaining batches = true →
      pubmed_fetchLoop now remaining batches = .ok ds → ds.length ≤ remaining := by
  induction batches with
  | nil =>
    intro remaining ds _ h
    obtain rfl := Except.ok.inj h.symm
    simp
  | cons b bs ih =>
    intro remaining ds hhon h
    by_cases hz : remaining = 0
    · rw [hz] at h ⊢
      simp only [pubmed_fetchLoop, if_pos rfl] at h
      obtain rfl := Except.ok.inj h.symm
      simp
    · simp only [pubmed_fetchLoop, if_neg hz] at h
      simp only [pubmed_honestB, if_neg hz] at hhon
      cases b with
      | failure => cases h
      | records recs =>
        simp only [Bool.and_eq_true, decide_eq_true_eq] at hhon
        cases hr : pubmed_fetchLoop now (remaining - min BATCH_SIZE remaining) bs with
        | error e => rw [hr] at h; cases h
        | ok rest =>
          rw [hr] at h
          simp only at h
          obtain rfl := Except.ok.inj h.symm
          have hrest := ih _ _ hhon.2 hr
          have hmap := List.length_filterMap_le (pubmed_record_to_document now) recs
          simp only [List.length_append]
          omega

/-- C4 counterexample to the claim as stated: with max_results 1, a PubMed
batch response carrying two titled records where one was requested makes
search return two documents, exceeding max_results (the PubMed loop has no
cap check and no final truncation). -/
theorem C4_pubmed_overrun_counterexample :
    (pubmed_search tNow 1 1 [PMFetch.records [recAlpha, recBeta]]).map
      List.length = .ok 2 ∧ 1 < 2 := by
  exact ⟨rfl, by decide⟩

/-- C4 amended: the EPO and SerpAPI searches return at most max_results
documents unconditionally (each ends in a truncation), and the PubMed
search returns at most max_results provided each consumed batch holds at
most the requested number of records; all three return documents in the
order the corresponding records were received from upstream; and the
PubMed loop is count-scheduled: an empty batch does not stop it, it simply
proceeds to the next scheduled batch. -/
theorem C4_bounded_ordered_pagination :
    (∀ (now : PyDateTime) (client : Option Unit) (max_results : Nat)
        (pages : List EPOFetch),
      ((epo_search now client max_results pages).1).length ≤ max_results ∧
      List.Sublist (epo_search now client max_results pages).1
        (epoUpstreamDocs now pages)) ∧
    (∀ (now : PyDateTime) (max_results : Nat) (pages : List (List SerpResult)),
      (serpapi_search now max_results pages).length ≤ max_results ∧
      List.Sublist (serpapi_search now max_results pages)
        (serpUpstreamDocs now pages)) ∧
    (∀ (now : PyDateTime) (total_count max_results : Nat) (batches : List PMFetch)
        (ds : List ScientificDocument),
      pubmed_search now total_count max_results batches = .ok ds →
      List.Sublist ds (pmUpstreamDocs now batches) ∧
      (pubmed_honestB (min total_count max_results) batches = true →
        ds.length ≤ max_results)) ∧
    (∀ (now : PyDateTime) (remaining : Nat) (bs : List PMFetch), remaining ≠ 0 →
      pubmed_fetchLoop now remaining (PMFetch.records [] :: bs) =
        pubmed_fetchLoop now (remaining - min BATCH_SIZE remaining) bs) := by
  refine ⟨?_, ?_, ?_, ?_⟩
  · intro now client max_results pages
    cases client with
    | none => exact ⟨by simp [epo_search], by simp [epo_search]⟩
    | some u =>
      obtain ⟨t, h1, h2⟩ := epoLoop_spec now max_results pages []
      rw [List.nil_append] at h1
      constructor
      · simp only [epo_search]
        exact List.length_take_le _ _
      · simp only [epo_search, h1]
        exact (List.take_sublist _ _).trans h2
  · intro now max_results pages
    obtain ⟨t, h1, h2⟩ := serpLoop_spec now max_results pages []
    rw [List.nil_append] at h1
    constructor
    · simp only [serpapi_search]
      exact List.length_take_le _ _
    · simp only [serpapi_search, h1]
      exact (List.take_sublist _ _).trans h2
  · intro now total_count max_results batches ds h
    refine ⟨pubmed_loop_sublist now batches _ ds h, fun hhon => ?_⟩
    have := pubmed_loop_length now batches _ ds hhon h
    omega
  · intro now remaining bs h
    cases hr : pubmed_fetchLoop now (remaining - min BATCH_SIZE remaining) bs with
    | error e => simp [pubmed_fetchLoop, h, hr]
    | ok rest => simp [pubmed_fetchLoop, h, hr]

/-- Witness for C4 amended: concrete two-page EPO and SerpAPI runs and an
honest one-batch PubMed run, each with max_results 1. -/
theorem C4_bounded_ordered_pagination_witness :
    ((epo_search tNow (some ()) 1 [EPOFetch.page [epoTitled]]).1).length ≤ 1 ∧
    (serpapi_search tNow 1 [[serpTitled]]).length ≤ 1 ∧
    ([docAlpha] : List ScientificDocument).length ≤ 1 ∧
    pubmed_fetchLoop tNow 1 [PMFetch.records [], PMFetch.records [recAlpha]] =
      pubmed_fetchLoop tNow 0 [PMFetch.records [recAlpha]] :=
  ⟨(C4_bounded_ordered_pagination.1 tNow (some ()) 1 [EPOFetch.page [epoTitled]]).1,
   (C4_bounded_ordered_pagination.2.1 tNow 1 [[serpTitled]]).1,
   (C4_bounded_ordered_pagination.2.2.1 tNow 5 1 [PMFetch.records [recAlpha]]
      [docAlpha] (by rfl)).2 (by decide),
   C4_bounded_ordered_pagination.2.2.2 tNow 1 [PMFetch.records [recAlpha]] (by decide)⟩
